import Mathlib

/-!
Verification development for the chat-session backend
(`src/api/chat.py`, `src/services/aws.py`, `src/models/chat.py`).

The Python code is shallowly embedded: pure fragments become Lean
functions on `String`/`List`; the calls to external capabilities
(token counting, speech synthesis, object store, hashing) become
explicit function-valued parameters, and the message handler's
effectful steps are modelled by functions that also return the list
of capability calls they perform.  Python strings are modelled via
`String` (a list of characters), and the Python string methods used
by the code (`strip`, `replace`, `split(sep, 1)`, slicing) are
re-implemented below with Python's exact semantics.
-/

namespace ChatCore

/-- The characters Python's `str.strip()` removes (Python whitespace:
space, tab, newline, carriage return, vertical tab, form feed). -/
def isPySpace (c : Char) : Bool :=
  c = ' ' || c = '\t' || c = '\n' || c = '\r' || c = '\x0b' || c = '\x0c'

/-- Python `s.strip()`: remove leading and trailing whitespace. -/
def pystrip (s : String) : String :=
  ⟨((s.data.dropWhile isPySpace).reverse.dropWhile isPySpace).reverse⟩

/-- Python `s[:n]` on a string: the first `n` characters. -/
def pyslice (s : String) (n : Nat) : String :=
  ⟨s.data.take n⟩

/-- Does the character list `s` start with the pattern `p`? -/
def startsWithChars : List Char → List Char → Bool
  | [], _ => true
  | _ :: _, [] => false
  | p :: ps, c :: cs => p = c && startsWithChars ps cs

/-- Split a character list at the first occurrence of the (nonempty, in
all uses) pattern `pat`: `some (before, after)` when `pat` occurs,
`none` otherwise.  Models Python `s.split(pat, 1)` producing two parts
exactly when `pat in s`. -/
def splitFirstChars (pat : List Char) : List Char → Option (List Char × List Char)
  | [] => if startsWithChars pat [] then some ([], []) else none
  | c :: cs =>
    if startsWithChars pat (c :: cs) then
      some ([], (c :: cs).drop pat.length)
    else
      match splitFirstChars pat cs with
      | some (h, t) => some (c :: h, t)
      | none => none

/-- Python `pat in s` (substring containment), via `splitFirstChars`. -/
def containsSub (s pat : String) : Bool :=
  (splitFirstChars pat.data s.data).isSome

/-- Left-to-right scan replacing every non-overlapping occurrence of
`pat` (nonempty in all uses) by `repl`.  Recursion is on an explicit
step budget `fuel`; every step removes at least one character from the
text, so `fuel = s.length` suffices and the `(0, s)` fallback is never
reached on such calls (`replaceAllChars_eq` below proves the natural
scan equations for the budgeted definition). -/
def replaceAllCharsAux (pat repl : List Char) : Nat → List Char → List Char
  | _, [] => []
  | 0, s => s
  | fuel + 1, c :: cs =>
    if startsWithChars pat (c :: cs) then
      repl ++ replaceAllCharsAux pat repl fuel ((c :: cs).drop pat.length)
    else
      c :: replaceAllCharsAux pat repl fuel cs

/-- Python `s.replace(pat, repl)` on character lists. -/
def replaceAllChars (pat repl s : List Char) : List Char :=
  replaceAllCharsAux pat repl s.length s

/-- Python `s.replace(pat, repl)` on strings. -/
def pyreplace (s pat repl : String) : String :=
  ⟨replaceAllChars pat.data repl.data s.data⟩

theorem replaceAllCharsAux_irrel (pat repl : List Char) (hpat : pat ≠ []) :
    ∀ (f₁ f₂ : Nat) (s : List Char), s.length ≤ f₁ → s.length ≤ f₂ →
      replaceAllCharsAux pat repl f₁ s = replaceAllCharsAux pat repl f₂ s := by
  intro f₁
  induction f₁ with
  | zero =>
    intro f₂ s h₁ _
    have hs : s = [] := List.eq_nil_of_length_eq_zero (Nat.le_zero.mp h₁)
    subst hs
    cases f₂ <;> rfl
  | succ f ih =>
    intro f₂ s h₁ h₂
    cases s with
    | nil => cases f₂ <;> rfl
    | cons c cs =>
      cases f₂ with
      | zero => exact absurd h₂ (by simp)
      | succ g =>
        simp only [replaceAllCharsAux]
        by_cases hm : startsWithChars pat (c :: cs) = true
        · simp only [hm, if_true]
          have hdrop : ((c :: cs).drop pat.length).length ≤ f := by
            have hp : 1 ≤ pat.length := by
              cases pat with
              | nil => exact absurd rfl hpat
              | cons p ps => simp
            have : ((c :: cs).drop pat.length).length = (c :: cs).length - pat.length := by
              simp
            omega
          have hdrop' : ((c :: cs).drop pat.length).length ≤ g := by
            have : ((c :: cs).drop pat.length).length = (c :: cs).length - pat.length := by
              simp
            have hp : 1 ≤ pat.length := by
              cases pat with
              | nil => exact absurd rfl hpat
              | cons p ps => simp
            omega
          rw [ih g _ hdrop hdrop']
        · have hcs : cs.length ≤ f := by simp at h₁; omega
          have hcs' : cs.length ≤ g := by simp at h₂; omega
          simp [hm, ih g cs hcs hcs']

/-- The budgeted scan satisfies Python `str.replace`'s natural
left-to-right recursion. -/
theorem replaceAllChars_eq (pat repl : List Char) (hpat : pat ≠ []) :
    ∀ s : List Char,
      replaceAllChars pat repl s =
        match s with
        | [] => []
        | c :: cs =>
          if startsWithChars pat (c :: cs) then
            repl ++ replaceAllChars pat repl ((c :: cs).drop pat.length)
          else
            c :: replaceAllChars pat repl cs := by
  intro s
  cases s with
  | nil => rfl
  | cons c cs =>
    simp only [replaceAllChars, List.length_cons, replaceAllCharsAux]
    by_cases hm : startsWithChars pat (c :: cs) = true
    · simp only [hm, if_true]
      have hp : 1 ≤ pat.length := by
        cases pat with
        | nil => exact absurd rfl hpat
        | cons p ps => simp
      have hlen : ((c :: cs).drop pat.length).length ≤ cs.length := by
        simp; omega
      rw [replaceAllCharsAux_irrel pat repl hpat cs.length ((c :: cs).drop pat.length).length
            _ hlen (Nat.le_refl _)]
    · simp only [hm, if_false]
      rfl

/-- A chat message as declared by `ChatMessage` in `src/models/chat.py`
(lines 6-8): the pydantic model declares exactly two fields, `role`
and `content`. -/
structure ChatMessage where
  role : String
  content : String
deriving DecidableEq, Repr

/-- The conversation-window truncation loop of `handle_chat_message`
(`src/api/chat.py` lines 182-187):

    while True:
        total_tokens = await model.count_tokens_async(history)
        if total_tokens.total_tokens <= MAX_CONVERSATION_TOKENS: break
        if len(history) > 2: history = history[2:]
        else: break

The token-counting capability is the function parameter `counter`
(deterministic in this model), the budget is `MAX_CONVERSATION_TOKENS`.
`len(history) > 2` holds exactly when the list has the shape
`a :: b :: c :: rest`, and `history[2:]` is then `c :: rest`; when
`len(history) <= 2` both loop exits return the history unchanged, so
that case is written as the identity branch. -/
def fit (counter : List ChatMessage → Nat) (budget : Nat) :
    List ChatMessage → List ChatMessage
  | a :: b :: c :: rest =>
    if counter (a :: b :: c :: rest) ≤ budget then a :: b :: c :: rest
    else fit counter budget (c :: rest)
  | h => h

/-- The response-channel parsing block of `handle_chat_message`
(`src/api/chat.py` lines 198-221):

    display_text = ai_response_raw
    ssml_text = None
    if "[SSML_TEXT]" in ai_response_raw:
        parts = ai_response_raw.split("[SSML_TEXT]", 1)
        display_text_part = parts[0].replace("[DISPLAY_TEXT]", "").strip()
        ssml_text_part = parts[1].strip()
        if display_text_part and ssml_text_part:
            display_text = display_text_part
            ssml_text = ssml_text_part

Returns `(display_text, ssml_text)`.  `split(marker, 1)` yields two
parts exactly when the marker occurs, which is what `splitFirstChars`
returning `some` captures; the Python truthiness test on the two parts
is non-emptiness of the trimmed strings. -/
def parseResponse (rawText : String) : String × Option String :=
  match splitFirstChars "[SSML_TEXT]".data rawText.data with
  | none => (rawText, none)
  | some (head, tail) =>
    let displayPart := pystrip (pyreplace ⟨head⟩ "[DISPLAY_TEXT]" "")
    let ssmlPart := pystrip ⟨tail⟩
    if displayPart ≠ "" ∧ ssmlPart ≠ "" then (displayPart, some ssmlPart)
    else (rawText, none)

/-- The parser exactly as the claim's reference definition words it:
on a marker hit, strip a literal `[DISPLAY_TEXT]` marker occurring as
a LEADING segment of the head (and only such a leading occurrence),
trim both parts, with the same empty-part fallback.  This definition
follows the claim's words, for comparison against `parseResponse`
(the source's behavior). -/
def parseResponseSpec (rawText : String) : String × Option String :=
  if containsSub rawText "[SSML_TEXT]" then
    match splitFirstChars "[SSML_TEXT]".data rawText.data with
    | some (head, tail) =>
      let head' :=
        if startsWithChars "[DISPLAY_TEXT]".data head then
          head.drop "[DISPLAY_TEXT]".data.length
        else head
      let displayPart := pystrip ⟨head'⟩
      let ssmlPart := pystrip ⟨tail⟩
      if displayPart ≠ "" ∧ ssmlPart ≠ "" then (displayPart, some ssmlPart)
      else (rawText, none)
    | none => (rawText, none)
  else (rawText, none)

/-- The claim's reference definition amended at the one point the code
diverges: the `[DISPLAY_TEXT]` marker is removed at EVERY occurrence
inside the head, not only as a leading segment (Python
`head.replace("[DISPLAY_TEXT]", "")`). -/
def parseResponseAmended (rawText : String) : String × Option String :=
  if containsSub rawText "[SSML_TEXT]" then
    match splitFirstChars "[SSML_TEXT]".data rawText.data with
    | some (head, tail) =>
      let displayPart := pystrip (pyreplace ⟨head⟩ "[DISPLAY_TEXT]" "")
      let ssmlPart := pystrip ⟨tail⟩
      if displayPart ≠ "" ∧ ssmlPart ≠ "" then (displayPart, some ssmlPart)
      else (rawText, none)
    | none => (rawText, none)
  else (rawText, none)

/-- The `text_for_audio` / `text_type_for_audio` selection of
`src/api/chat.py` lines 200-213: initialized to the display text with
type `text`, overridden to the parsed markup with type `ssml` exactly
when the delimiter parse succeeded. -/
def audioInput (rawText : String) : String × String :=
  match parseResponse rawText with
  | (d, none) => (d, "text")
  | (_, some s) => (s, "ssml")

/-- `GenerationConfigModel` (`src/models/chat.py` lines 10-17): all
fields optional.  Floats are modelled as rationals. -/
structure GenerationConfigModel where
  temperature : Option ℚ := none
  top_p : Option ℚ := none
  top_k : Option Int := none
  candidate_count : Option Int := none
  max_output_tokens : Option Int := none
  system_instruction : Option String := none
  bot_version : Option String := none
deriving DecidableEq

/-- `MessageRequest` (`src/models/chat.py` lines 19-22): the request
body model declares exactly the fields `message`, `persona_id` and
`config` — note that no `bot_version` field is declared here. -/
structure MessageRequest where
  message : String
  persona_id : Option Int := none
  config : Option GenerationConfigModel := none
deriving DecidableEq

/-- Pydantic construction of a `MessageRequest` from a request body
that additionally carries a `bot_version` value: under pydantic's
default configuration, body keys that are not declared fields of the
model are dropped, so the extra value never reaches the constructed
record. -/
def buildMessageRequest (message : String) (personaId : Option Int)
    (config : Option GenerationConfigModel) (_botVersion : Option String) :
    MessageRequest :=
  { message := message, persona_id := personaId, config := config }

/-- Pydantic construction of a `ChatMessage` as performed at
`src/api/chat.py` line 225:
`ChatMessage(role="model", content=display_text, ssml=ssml_text, audio_url=audio_url)`.
`ChatMessage` (`src/models/chat.py` lines 6-8) declares only `role`
and `content`, so under pydantic's default configuration the `ssml`
and `audio_url` keyword arguments are dropped. -/
def buildChatMessage (role content : String) (_ssml _audioUrl : Option String) :
    ChatMessage :=
  { role := role, content := content }

/-- `msg.dict()` on a `ChatMessage` (`src/api/chat.py` line 233): the
serialized form carries exactly the declared fields. -/
def dictChatMessage (m : ChatMessage) : List (String × String) :=
  [("role", m.role), ("content", m.content)]

/-- `generate_audio_filename` (`src/services/aws.py` lines 25-29):

    clean_text = text.strip()
    sha256 = hashlib.sha256((clean_text + voice_id).encode("utf-8")).hexdigest()
    return f"{sha256}.mp3"

The SHA-256 hex digest is an external library capability and is passed
in as the function parameter `hash`. -/
def generate_audio_filename (hash : String → String) (text voiceId : String) :
    String :=
  hash (pystrip text ++ voiceId) ++ ".mp3"

/-- Outcome of the `head_object` existence check in
`get_or_create_audio_url` (`src/services/aws.py` lines 62-70): either
the object is found, or a `ClientError` with code `'404'` is raised
(not found), or a `ClientError` with some other code is raised. -/
inductive HeadResult where
  | found : HeadResult
  | notFound : HeadResult
  | otherError : HeadResult
deriving DecidableEq, Repr

/-- One outbound call made by the audio-cache resolve, recorded in
order: the S3 existence check, the Polly synthesis (with the exact
text, text type and voice passed), the S3 upload, and the pre-signed
URL issuance. -/
inductive AwsCall where
  | headObject (key : String) : AwsCall
  | synthesizeSpeech (text textType voiceId : String) : AwsCall
  | putObject (key : String) : AwsCall
  | presignUrl (key : String) : AwsCall
deriving DecidableEq, Repr

/-- The ambient AWS state of `src/services/aws.py`: whether the Polly
and S3 clients were initialized (lines 13-23), the bucket name
(`S3_BUCKET_NAME`, empty string when unset — Python falsy), the hash
capability, and the outcome each outbound call would have.  Each call
site runs at most once per resolve, so outcomes are plain data. -/
structure AwsEnv where
  hasPolly : Bool
  hasS3 : Bool
  bucket : String
  hash : String → String
  /-- outcome of `s3_client.head_object` on a key -/
  head : String → HeadResult
  /-- outcome of `polly_client.synthesize_speech(Text, TextType, VoiceId)`:
  `some blob` on success, `none` when it (or reading/uploading its
  stream) raises -/
  synth : String → String → String → Option (List Nat)
  /-- whether `s3_client.put_object` on this key and blob succeeds -/
  put : String → List Nat → Bool
  /-- outcome of `generate_presigned_url`: `none` when it raises
  `ClientError` -/
  presign : String → Option String

/-- `get_presigned_url` (`src/services/aws.py` lines 31-44): `None`
when the S3 client is unconfigured, otherwise the provider outcome
(`None` on `ClientError`). -/
def get_presigned_url (env : AwsEnv) (fileName : String) : Option String :=
  if env.hasS3 then env.presign fileName else none

/-- `get_or_create_audio_url` (`src/services/aws.py` lines 46-103),
returning the resulting URL (if any) together with the ordered list of
outbound calls performed:

1. if not all of the Polly client, S3 client and bucket name are
   configured, return `None` with no call made (lines 52-54);
2. strip the text; if empty, return `None` with no call made (lines 56-58);
3. compute the filename and `head_object` it (lines 60-64);
4. on a hit, fall through to pre-signing; on a 404, synthesize with
   Polly and upload, any failure there returning `None`; on any other
   `head_object` error code, return `None` (lines 68-99);
5. only once the object is confirmed stored, issue the pre-signed URL
   (line 103). -/
def get_or_create_audio_url (env : AwsEnv) (text voiceId textType : String) :
    Option String × List AwsCall :=
  if ¬ (env.hasPolly && env.hasS3 && env.bucket ≠ "") then (none, [])
  else
    let cleanText := pystrip text
    if cleanText = "" then (none, [])
    else
      let fileName := generate_audio_filename env.hash cleanText voiceId
      match env.head fileName with
      | .found =>
        (get_presigned_url env fileName,
         [.headObject fileName, .presignUrl fileName])
      | .notFound =>
        match env.synth cleanText textType voiceId with
        | none =>
          (none, [.headObject fileName,
                  .synthesizeSpeech cleanText textType voiceId])
        | some blob =>
          if env.put fileName blob then
            (get_presigned_url env fileName,
             [.headObject fileName,
              .synthesizeSpeech cleanText textType voiceId,
              .putObject fileName, .presignUrl fileName])
          else
            (none, [.headObject fileName,
                    .synthesizeSpeech cleanText textType voiceId,
                    .putObject fileName])
      | .otherError => (none, [.headObject fileName])

/-- The Polly synthesis calls among a call list, with their
(text, textType, voiceId) arguments. -/
def synthCalls (calls : List AwsCall) : List (String × String × String) :=
  calls.filterMap fun c =>
    match c with
    | .synthesizeSpeech t ty v => some (t, ty, v)
    | _ => none

/-- One message-handling turn of `handle_chat_message`
(`src/api/chat.py`), restricted to the state the session-name logic
touches.  The state is the persisted `(history, session_name)` pair;
a turn carries the inbound user message and the model's reply content.
Mirrors: `is_first_message = not history_data` (line 164), appending
the user message (line 166), the truncation loop (lines 182-187),
appending the model reply (line 225), and the session-name update
(lines 235-241): `new_session_name = request.message[:99]` on the
first turn only, otherwise the stored name is kept. -/
def handleTurn (counter : List ChatMessage → Nat) (budget : Nat)
    (state : List ChatMessage × Option String) (turn : String × String) :
    List ChatMessage × Option String :=
  let history₀ := state.1
  let name₀ := state.2
  let isFirstMessage := history₀.isEmpty
  let h₁ := history₀ ++ [{ role := "user", content := turn.1 }]
  let h₂ := fit counter budget h₁
  let h₃ := h₂ ++ [{ role := "model", content := turn.2 }]
  (h₃, if isFirstMessage then some (pyslice turn.1 99) else name₀)

/-- A whole session: successive message turns starting from the given
persisted state. -/
def runTurns (counter : List ChatMessage → Nat) (budget : Nat)
    (state : List ChatMessage × Option String)
    (turns : List (String × String)) : List ChatMessage × Option String :=
  turns.foldl (handleTurn counter budget) state

/-! ### Supporting lemmas about `fit` -/

theorem fit_of_le {counter : List ChatMessage → Nat} {budget : Nat}
    {h : List ChatMessage} (hle : counter h ≤ budget) :
    fit counter budget h = h := by
  match h with
  | [] => rfl
  | [x] => rfl
  | [x, y] => rfl
  | a :: b :: c :: rest => simp [fit, hle]

theorem fit_short {counter : List ChatMessage → Nat} {budget : Nat}
    {h : List ChatMessage} (hlen : h.length ≤ 2) :
    fit counter budget h = h := by
  match h with
  | [] => rfl
  | [x] => rfl
  | [x, y] => rfl
  | a :: b :: c :: rest =>
    exfalso
    simp only [List.length_cons] at hlen
    omega

/-- `fit` only ever removes an even-length block from the head, and it
removes a block only when every intermediate window it measured was
over budget. -/
theorem fit_drop (counter : List ChatMessage → Nat) (budget : Nat)
    (h : List ChatMessage) :
    ∃ k, fit counter budget h = h.drop (2 * k) ∧
      ∀ j, j < k → budget < counter (h.drop (2 * j)) := by
  induction h using fit.induct counter budget with
  | case1 a b c rest hle =>
    refine ⟨0, ?_, ?_⟩
    · simp [fit, hle]
    · intro j hj; omega
  | case2 a b c rest hgt ih =>
    obtain ⟨k, hk, hover⟩ := ih
    refine ⟨k + 1, ?_, ?_⟩
    · have : fit counter budget (a :: b :: c :: rest) =
          fit counter budget (c :: rest) := by
        simp [fit, hgt]
      rw [this, hk]
      have : 2 * (k + 1) = 2 * k + 2 := by omega
      rw [this]
      rfl
    · intro j hj
      cases j with
      | zero => simpa using Nat.lt_of_not_le hgt
      | succ j' =>
        have hj' : j' < k := by omega
        have : (a :: b :: c :: rest).drop (2 * (j' + 1)) =
            (c :: rest).drop (2 * j') := by
          have : 2 * (j' + 1) = 2 * j' + 2 := by omega
          rw [this]
          rfl
        rw [this]
        exact hover j' hj'
  | case3 h hshape =>
    refine ⟨0, ?_, ?_⟩
    · have : fit counter budget h = h := by
        match h with
        | [] => rfl
        | [x] => rfl
        | [x, y] => rfl
        | a :: b :: c :: rest => exact absurd rfl (hshape a b c rest)
      simp [this]
    · intro j hj; omega

/-- When the loop exits, either the window fits the budget or at most
two messages remain. -/
theorem fit_stops (counter : List ChatMessage → Nat) (budget : Nat)
    (h : List ChatMessage) :
    counter (fit counter budget h) ≤ budget ∨
      (fit counter budget h).length ≤ 2 := by
  induction h using fit.induct counter budget with
  | case1 a b c rest hle =>
    left
    rw [fit_of_le hle]
    exact hle
  | case2 a b c rest hgt ih =>
    have heq : fit counter budget (a :: b :: c :: rest) =
        fit counter budget (c :: rest) := by
      simp [fit, hgt]
    rw [heq]
    exact ih
  | case3 h hshape =>
    have heq : fit counter budget h = h := by
      match h with
      | [] => rfl
      | [x] => rfl
      | [x, y] => rfl
      | a :: b :: c :: rest => exact absurd rfl (hshape a b c rest)
    by_cases hle : counter h ≤ budget
    · left; rw [heq]; exact hle
    · right
      rw [heq]
      match h with
      | [] => simp
      | [x] => simp
      | [x, y] => simp
      | a :: b :: c :: rest => exact absurd rfl (hshape a b c rest)

/-- `fit` never empties a nonempty window. -/
theorem fit_ne_nil (counter : List ChatMessage → Nat) (budget : Nat)
    (h : List ChatMessage) (hne : h ≠ []) :
    fit counter budget h ≠ [] := by
  induction h using fit.induct counter budget with
  | case1 a b c rest hle =>
    rw [fit_of_le hle]
    exact hne
  | case2 a b c rest hgt ih =>
    have heq : fit counter budget (a :: b :: c :: rest) =
        fit counter budget (c :: rest) := by
      simp [fit, hgt]
    rw [heq]
    exact ih (by simp)
  | case3 h hshape =>
    have heq : fit counter budget h = h := by
      match h with
      | [] => rfl
      | [x] => rfl
      | [x, y] => rfl
      | a :: b :: c :: rest => exact absurd rfl (hshape a b c rest)
    rw [heq]
    exact hne

/-- On an even-length window of at least two messages, `fit` keeps at
least two messages. -/
theorem fit_even_floor (counter : List ChatMessage → Nat) (budget : Nat)
    (h : List ChatMessage) (heven : h.length % 2 = 0) (hlen : 2 ≤ h.length) :
    2 ≤ (fit counter budget h).length := by
  induction h using fit.induct counter budget with
  | case1 a b c rest hle =>
    rw [fit_of_le hle]
    exact hlen
  | case2 a b c rest hgt ih =>
    have heq : fit counter budget (a :: b :: c :: rest) =
        fit counter budget (c :: rest) := by
      simp [fit, hgt]
    rw [heq]
    have heven' : (c :: rest).length % 2 = 0 := by
      simp only [List.length_cons] at heven ⊢
      omega
    have hlen' : 2 ≤ (c :: rest).length := by
      simp only [List.length_cons] at heven ⊢
      omega
    exact ih heven' hlen'
  | case3 h hshape =>
    have heq : fit counter budget h = h := by
      match h with
      | [] => rfl
      | [x] => rfl
      | [x, y] => rfl
      | a :: b :: c :: rest => exact absurd rfl (hshape a b c rest)
    rw [heq]
    exact hlen

/-- `fit` is idempotent. -/
theorem fit_idem (counter : List ChatMessage → Nat) (budget : Nat)
    (h : List ChatMessage) :
    fit counter budget (fit counter budget h) = fit counter budget h := by
  rcases fit_stops counter budget h with hle | hshort
  · exact fit_of_le hle
  · exact fit_short hshort

/-! ### Supporting lemmas about message turns -/

theorem handleTurn_fst_ne_nil (counter : List ChatMessage → Nat)
    (budget : Nat) (state : List ChatMessage × Option String)
    (turn : String × String) :
    (handleTurn counter budget state turn).1 ≠ [] := by
  simp [handleTurn]

theorem handleTurn_snd_of_ne_nil (counter : List ChatMessage → Nat)
    (budget : Nat) (state : List ChatMessage × Option String)
    (turn : String × String) (hne : state.1 ≠ []) :
    (handleTurn counter budget state turn).2 = state.2 := by
  obtain ⟨h₀, n₀⟩ := state
  cases h₀ with
  | nil => exact absurd rfl hne
  | cons m rest => simp [handleTurn]

theorem handleTurn_first (counter : List ChatMessage → Nat) (budget : Nat)
    (name : Option String) (turn : String × String) :
    (handleTurn counter budget ([], name) turn).2 = some (pyslice turn.1 99) := by
  simp [handleTurn]

/-- Once the persisted history is nonempty, any further sequence of
turns keeps it nonempty and never touches the session name. -/
theorem runTurns_stable (counter : List ChatMessage → Nat) (budget : Nat) :
    ∀ (turns : List (String × String))
      (state : List ChatMessage × Option String), state.1 ≠ [] →
      (runTurns counter budget state turns).2 = state.2 ∧
        (runTurns counter budget state turns).1 ≠ [] := by
  intro turns
  induction turns with
  | nil => intro state hne; exact ⟨rfl, hne⟩
  | cons t ts ih =>
    intro state hne
    have hstep₁ : (handleTurn counter budget state t).1 ≠ [] :=
      handleTurn_fst_ne_nil counter budget state t
    have hstep₂ : (handleTurn counter budget state t).2 = state.2 :=
      handleTurn_snd_of_ne_nil counter budget state t hne
    have hrest := ih (handleTurn counter budget state t) hstep₁
    refine ⟨?_, hrest.2⟩
    calc (runTurns counter budget state (t :: ts)).2
        = (runTurns counter budget (handleTurn counter budget state t) ts).2 :=
          rfl
      _ = (handleTurn counter budget state t).2 := hrest.1
      _ = state.2 := hstep₂

/-! ### Supporting lemma about the parser -/

/-- The source parser coincides with the claim's reference structure
once the marker-stripping step is read as removal of every occurrence
(which is what `parts[0].replace("[DISPLAY_TEXT]", "")` does). -/
theorem parseResponse_eq_amended (rawText : String) :
    parseResponse rawText = parseResponseAmended rawText := by
  unfold parseResponse parseResponseAmended containsSub
  cases hsplit : splitFirstChars "[SSML_TEXT]".data rawText.data with
  | none => simp
  | some p =>
    obtain ⟨head, tail⟩ := p
    simp

/-! ### Supporting lemmas about the audio cache -/

/-- The S3 object key `get_or_create_audio_url` resolves a request to
(`src/services/aws.py` lines 56-60). -/
def resolveKey (env : AwsEnv) (text voiceId : String) : String :=
  generate_audio_filename env.hash (pystrip text) voiceId

theorem resolve_eq (env : AwsEnv) (text voiceId textType : String) :
    get_or_create_audio_url env text voiceId textType =
      if ¬ (env.hasPolly && env.hasS3 && env.bucket ≠ "") then (none, [])
      else if pystrip text = "" then (none, [])
      else
        match env.head (resolveKey env text voiceId) with
        | .found =>
          (get_presigned_url env (resolveKey env text voiceId),
           [.headObject (resolveKey env text voiceId),
            .presignUrl (resolveKey env text voiceId)])
        | .notFound =>
          match env.synth (pystrip text) textType voiceId with
          | none =>
            (none, [.headObject (resolveKey env text voiceId),
                    .synthesizeSpeech (pystrip text) textType voiceId])
          | some blob =>
            if env.put (resolveKey env text voiceId) blob then
              (get_presigned_url env (resolveKey env text voiceId),
               [.headObject (resolveKey env text voiceId),
                .synthesizeSpeech (pystrip text) textType voiceId,
                .putObject (resolveKey env text voiceId),
                .presignUrl (resolveKey env text voiceId)])
            else
              (none, [.headObject (resolveKey env text voiceId),
                      .synthesizeSpeech (pystrip text) textType voiceId,
                      .putObject (resolveKey env text voiceId)])
        | .otherError => (none, [.headObject (resolveKey env text voiceId)]) := rfl

theorem resolve_confirmed (env : AwsEnv) (text voiceId textType : String) :
    ∀ url, (get_or_create_audio_url env text voiceId textType).1 = some url →
      env.head (resolveKey env text voiceId) = .found ∨
        (env.head (resolveKey env text voiceId) = .notFound ∧
          ∃ blob, env.synth (pystrip text) textType voiceId = some blob ∧
            env.put (resolveKey env text voiceId) blob = true) := by
  intro url hurl
  rw [resolve_eq] at hurl
  split at hurl
  · exact absurd hurl (by simp)
  · split at hurl
    · exact absurd hurl (by simp)
    · split at hurl
      next hfound => exact Or.inl hfound
      next hnf =>
        split at hurl
        next hsynth => exact absurd hurl (by simp)
        next blob hsynth =>
          split at hurl
          next hput => exact Or.inr ⟨hnf, blob, hsynth, hput⟩
          next hput => exact absurd hurl (by simp)
      next herr => exact absurd hurl (by simp)


theorem resolve_unconfigured (env : AwsEnv) (text voiceId textType : String)
    (hmiss : env.hasPolly = false ∨ env.hasS3 = false ∨ env.bucket = "") :
    get_or_create_audio_url env text voiceId textType = (none, []) := by
  rw [resolve_eq]
  rcases hmiss with hm | hm | hm <;> simp [hm]

theorem resolve_head_error (env : AwsEnv) (text voiceId textType : String)
    (herr : env.head (resolveKey env text voiceId) = .otherError) :
    (get_or_create_audio_url env text voiceId textType).1 = none := by
  rw [resolve_eq]
  split
  · rfl
  · split
    · rfl
    · split
      next hfound => simp [herr] at hfound
      next hnf => simp [herr] at hnf
      next => rfl

theorem resolve_synth_failure (env : AwsEnv) (text voiceId textType : String)
    (hnf : env.head (resolveKey env text voiceId) = .notFound)
    (hsf : env.synth (pystrip text) textType voiceId = none) :
    (get_or_create_audio_url env text voiceId textType).1 = none := by
  rw [resolve_eq]
  split
  · rfl
  · split
    · rfl
    · split
      next hfound => simp [hnf] at hfound
      next =>
        split
        next => rfl
        next blob hsynth => simp [hsf] at hsynth
      next herr => simp [hnf] at herr

theorem resolve_put_failure (env : AwsEnv) (text voiceId textType : String)
    (blob : List Nat)
    (hnf : env.head (resolveKey env text voiceId) = .notFound)
    (hs : env.synth (pystrip text) textType voiceId = some blob)
    (hp : env.put (resolveKey env text voiceId) blob = false) :
    (get_or_create_audio_url env text voiceId textType).1 = none := by
  rw [resolve_eq]
  split
  · rfl
  · split
    · rfl
    · split
      next hfound => simp [hnf] at hfound
      next =>
        split
        next => rfl
        next blob2 hsynth =>
          rw [hs] at hsynth
          injection hsynth with hb
          subst hb
          split
          next hput => simp [hp] at hput
          next => rfl
      next herr => simp [hnf] at herr

theorem resolve_synth_args (env : AwsEnv) (text voiceId textType : String) :
    synthCalls (get_or_create_audio_url env text voiceId textType).2 = [] ∨
      synthCalls (get_or_create_audio_url env text voiceId textType).2 =
        [(pystrip text, textType, voiceId)] := by
  rw [resolve_eq]
  split
  · left; rfl
  · split
    · left; rfl
    · split
      · left; simp [synthCalls]
      · split
        · right; simp [synthCalls]
        · split
          · right; simp [synthCalls]
          · right; simp [synthCalls]
      · left; rfl

/-! ### Concrete fixtures used by witnesses and counterexamples -/

/-- A concrete deterministic token counter: one token per message. -/
def cLen : List ChatMessage → Nat := fun h => h.length

/-- A two-message history (one user/model pair). -/
def msgs2 : List ChatMessage :=
  [{ role := "user", content := "a" }, { role := "model", content := "b" }]

/-- A three-message history: one persisted pair plus a fresh user
message, the shape the handler always feeds into the truncation loop. -/
def msgs3 : List ChatMessage :=
  [{ role := "user", content := "a" }, { role := "model", content := "b" },
   { role := "user", content := "c" }]

/-- A four-message history (two user/model pairs). -/
def msgs4 : List ChatMessage :=
  [{ role := "user", content := "a" }, { role := "model", content := "b" },
   { role := "user", content := "c" }, { role := "model", content := "d" }]

/-- A concrete stand-in for the hash capability; the counterexamples
below hold for every hash function, so the identity suffices to close
them. -/
def hashId : String → String := fun s => s

/-- Markup text carrying a `volume` attribute on a `prosody` tag. -/
def ssmlVolume : String :=
  "<speak><prosody volume=\"x-loud\">hi</prosody></speak>"

/-- Fully configured environment whose existence check misses (404)
and whose synthesis, upload and pre-signing all succeed. -/
def envFill : AwsEnv :=
  { hasPolly := true, hasS3 := true, bucket := "bkt", hash := hashId,
    head := fun _ => .notFound, synth := fun _ _ _ => some [7],
    put := fun _ _ => true, presign := fun k => some ("https://signed/" ++ k) }

/-- Fully configured environment whose existence check hits. -/
def envHit : AwsEnv :=
  { hasPolly := true, hasS3 := true, bucket := "bkt", hash := hashId,
    head := fun _ => .found, synth := fun _ _ _ => none,
    put := fun _ _ => false, presign := fun k => some ("https://signed/" ++ k) }

/-- Fully configured environment whose existence check fails with a
non-404 error. -/
def envHeadErr : AwsEnv :=
  { envHit with head := fun _ => .otherError }

/-- Fully configured environment whose existence check misses and
whose synthesis fails. -/
def envSynthFail : AwsEnv :=
  { envFill with synth := fun _ _ _ => none }

/-- Fully configured environment whose existence check misses, whose
synthesis succeeds, and whose upload fails. -/
def envPutFail : AwsEnv :=
  { envFill with put := fun _ _ => false }

/-- Environment with the Polly client unconfigured. -/
def envNoPolly : AwsEnv :=
  { envFill with hasPolly := false }

/-! ### Claim theorems -/

/-- Claim C1 (amended).  For every history and budget, `fit` removes
messages only from the head in increments of 2, each removal happening
only while the measured count of the current window exceeded the
budget (so nothing is removed when the pre-truncation count is within
budget, and removal stops as soon as the count fits); it never empties
a nonempty window, and on an even-length window it never goes below 2
messages.  The original claim's unconditional 2-message floor is
amended: an odd-length window of at least 3 messages that stays over
budget is reduced to exactly 1 message (see the counterexample). -/
theorem fit_head_pairs_and_floor (counter : List ChatMessage → Nat)
    (budget : Nat) (h : List ChatMessage) :
    (∃ k, fit counter budget h = h.drop (2 * k) ∧
        ∀ j, j < k → budget < counter (h.drop (2 * j))) ∧
    (counter h ≤ budget → fit counter budget h = h) ∧
    (counter (fit counter budget h) ≤ budget ∨
      (fit counter budget h).length ≤ 2) ∧
    (h ≠ [] → fit counter budget h ≠ []) ∧
    (h.length % 2 = 0 → 2 ≤ h.length → 2 ≤ (fit counter budget h).length) :=
  ⟨fit_drop counter budget h, fun hle => fit_of_le hle,
   fit_stops counter budget h, fit_ne_nil counter budget h,
   fun heven hlen => fit_even_floor counter budget h heven hlen⟩

/-- Witness for `fit_head_pairs_and_floor` at concrete inputs. -/
theorem fit_head_pairs_and_floor_check :
    (cLen msgs4 ≤ 9 ∧ fit cLen 9 msgs4 = msgs4) ∧
    (msgs4 ≠ [] ∧ fit cLen 0 msgs4 ≠ []) ∧
    (msgs4.length % 2 = 0 ∧ 2 ≤ msgs4.length ∧
      2 ≤ (fit cLen 0 msgs4).length) :=
  ⟨⟨by decide, (fit_head_pairs_and_floor cLen 9 msgs4).2.1 (by decide)⟩,
   ⟨by decide, (fit_head_pairs_and_floor cLen 0 msgs4).2.2.2.1 (by decide)⟩,
   ⟨by decide, by decide,
    (fit_head_pairs_and_floor cLen 0 msgs4).2.2.2.2 (by decide) (by decide)⟩⟩

/-- Counterexample to claim C1 as stated: a 3-message history whose
measured count (3 tokens) exceeds the budget (0) is truncated to a
single message — below the claimed 2-message floor. -/
theorem fit_floor_counterexample :
    2 < msgs3.length ∧ 0 < cLen msgs3 ∧
      fit cLen 0 msgs3 = [{ role := "user", content := "c" }] ∧
      (fit cLen 0 msgs3).length < 2 := by
  decide

/-- Claim C4.  With a deterministic token counter, truncation is
idempotent, and `fit` is the identity on a window that already fits
the budget as well as on a window of at most 2 messages. -/
theorem fit_idempotent (counter : List ChatMessage → Nat) (budget : Nat)
    (h : List ChatMessage) :
    fit counter budget (fit counter budget h) = fit counter budget h ∧
    (counter h ≤ budget → fit counter budget h = h) ∧
    (h.length ≤ 2 → fit counter budget h = h) :=
  ⟨fit_idem counter budget h, fun hle => fit_of_le hle,
   fun hs => fit_short hs⟩

/-- Witness for `fit_idempotent` at concrete inputs. -/
theorem fit_idempotent_check :
    (fit cLen 0 (fit cLen 0 msgs3) = fit cLen 0 msgs3) ∧
    (cLen msgs4 ≤ 9 ∧ fit cLen 9 msgs4 = msgs4) ∧
    (msgs2.length ≤ 2 ∧ fit cLen 0 msgs2 = msgs2) :=
  ⟨(fit_idempotent cLen 0 msgs3).1,
   ⟨by decide, (fit_idempotent cLen 9 msgs4).2.1 (by decide)⟩,
   ⟨by decide, (fit_idempotent cLen 0 msgs2).2.2 (by decide)⟩⟩

/-- Claim C2 (amended).  The response parser behaves as the claim's
reference definition with one correction: the `[DISPLAY_TEXT]` marker
is removed at every occurrence inside the head (Python
`str.replace`), not only when it occurs as a leading segment. -/
theorem parser_matches_reference (rawText : String) :
    parseResponse rawText = parseResponseAmended rawText :=
  parseResponse_eq_amended rawText

/-- Counterexample to claim C2 as stated: with the marker occurring in
the middle of the head, the source parser deletes it, while the
claim's leading-segment-stripping reference definition keeps it. -/
theorem parser_reference_counterexample :
    parseResponse "a[DISPLAY_TEXT]b[SSML_TEXT]c" = ("ab", some "c") ∧
    parseResponseSpec "a[DISPLAY_TEXT]b[SSML_TEXT]c" =
      ("a[DISPLAY_TEXT]b", some "c") ∧
    parseResponse "a[DISPLAY_TEXT]b[SSML_TEXT]c" ≠
      parseResponseSpec "a[DISPLAY_TEXT]b[SSML_TEXT]c" := by
  decide

/-- Claim C3 (amended).  The fingerprint is deterministic, and two
calls collide exactly when the trimmed text concatenated with the
voice identifier coincide (assuming the hash capability itself is
injective; the original claim's unconditional injectivity in (text,
voice) fails because the text is trimmed before hashing and because
text and voice are concatenated without a separator). -/
theorem fingerprint_deterministic_and_collisions (hash : String → String)
    (t₁ v₁ t₂ v₂ : String) :
    (generate_audio_filename hash t₁ v₁ = generate_audio_filename hash t₁ v₁) ∧
    (pystrip t₁ ++ v₁ = pystrip t₂ ++ v₂ →
      generate_audio_filename hash t₁ v₁ = generate_audio_filename hash t₂ v₂) ∧
    (Function.Injective hash →
      (generate_audio_filename hash t₁ v₁ = generate_audio_filename hash t₂ v₂ ↔
        pystrip t₁ ++ v₁ = pystrip t₂ ++ v₂)) := by
  refine ⟨rfl, ?_, ?_⟩
  · intro heq
    unfold generate_audio_filename
    rw [heq]
  · intro hinj
    constructor
    · intro heq
      unfold generate_audio_filename at heq
      have hd := congrArg String.data heq
      simp only [String.data_append] at hd
      have hcancel := List.append_cancel_right hd
      exact hinj (String.ext hcancel)
    · intro heq
      unfold generate_audio_filename
      rw [heq]

/-- Witness for `fingerprint_deterministic_and_collisions` at concrete
inputs. -/
theorem fingerprint_deterministic_and_collisions_check :
    (pystrip " hi " ++ "Joanna" = pystrip "hi" ++ "Joanna" ∧
      generate_audio_filename hashId " hi " "Joanna" =
        generate_audio_filename hashId "hi" "Joanna") ∧
    (Function.Injective hashId ∧
      (generate_audio_filename hashId "ab" "c" =
          generate_audio_filename hashId "a" "bc" ↔
        pystrip "ab" ++ "c" = pystrip "a" ++ "bc")) :=
  ⟨⟨by decide,
    (fingerprint_deterministic_and_collisions hashId " hi " "Joanna" "hi"
      "Joanna").2.1 (by decide)⟩,
   ⟨fun a b hab => hab,
    (fingerprint_deterministic_and_collisions hashId "ab" "c" "a"
      "bc").2.2 (fun a b hab => hab)⟩⟩

/-- Counterexample to claim C3 as stated: distinct inputs with equal
fingerprints, through trimming (same voice, texts differing in
whitespace) and through separator-free concatenation (both text and
voice differ).  Both equalities hold for every hash capability; the
identity instantiates them. -/
theorem fingerprint_injectivity_counterexample :
    " hi " ≠ "hi" ∧
    generate_audio_filename hashId " hi " "Joanna" =
      generate_audio_filename hashId "hi" "Joanna" ∧
    ("ab", "c") ≠ ("a", "bc") ∧
    generate_audio_filename hashId "ab" "c" =
      generate_audio_filename hashId "a" "bc" := by
  decide

/-- Claim C5.  The audio cache fails closed: a non-404 existence-check
error, a synthesis failure, or an upload failure each force a `none`
result, and a URL is returned only when the object is confirmed
stored — the existence check found it, or the miss was filled by a
successful synthesis and a successful upload. -/
theorem resolve_fails_closed (env : AwsEnv) (text voiceId textType : String) :
    (∀ url, (get_or_create_audio_url env text voiceId textType).1 = some url →
      env.head (resolveKey env text voiceId) = .found ∨
        (env.head (resolveKey env text voiceId) = .notFound ∧
          ∃ blob, env.synth (pystrip text) textType voiceId = some blob ∧
            env.put (resolveKey env text voiceId) blob = true)) ∧
    (env.head (resolveKey env text voiceId) = .otherError →
      (get_or_create_audio_url env text voiceId textType).1 = none) ∧
    (env.head (resolveKey env text voiceId) = .notFound →
      env.synth (pystrip text) textType voiceId = none →
      (get_or_create_audio_url env text voiceId textType).1 = none) ∧
    (∀ blob, env.head (resolveKey env text voiceId) = .notFound →
      env.synth (pystrip text) textType voiceId = some blob →
      env.put (resolveKey env text voiceId) blob = false →
      (get_or_create_audio_url env text voiceId textType).1 = none) :=
  ⟨resolve_confirmed env text voiceId textType,
   fun herr => resolve_head_error env text voiceId textType herr,
   fun hnf hsf => resolve_synth_failure env text voiceId textType hnf hsf,
   fun blob hnf hs hp => resolve_put_failure env text voiceId textType blob hnf hs hp⟩

/-- Witness for `resolve_fails_closed` at concrete environments:
a successful fill's URL implies confirmed storage, and each failure
mode concretely yields `none`. -/
theorem resolve_fails_closed_check :
    ((get_or_create_audio_url envFill "hi" "Joanna" "text").1 =
        some "https://signed/hiJoanna.mp3" ∧
      (envFill.head (resolveKey envFill "hi" "Joanna") = .found ∨
        (envFill.head (resolveKey envFill "hi" "Joanna") = .notFound ∧
          ∃ blob, envFill.synth (pystrip "hi") "text" "Joanna" = some blob ∧
            envFill.put (resolveKey envFill "hi" "Joanna") blob = true))) ∧
    (envHeadErr.head (resolveKey envHeadErr "hi" "Joanna") = .otherError ∧
      (get_or_create_audio_url envHeadErr "hi" "Joanna" "text").1 = none) ∧
    (envSynthFail.head (resolveKey envSynthFail "hi" "Joanna") = .notFound ∧
      envSynthFail.synth (pystrip "hi") "text" "Joanna" = none ∧
      (get_or_create_audio_url envSynthFail "hi" "Joanna" "text").1 = none) ∧
    (envPutFail.head (resolveKey envPutFail "hi" "Joanna") = .notFound ∧
      envPutFail.synth (pystrip "hi") "text" "Joanna" = some [7] ∧
      envPutFail.put (resolveKey envPutFail "hi" "Joanna") [7] = false ∧
      (get_or_create_audio_url envPutFail "hi" "Joanna" "text").1 = none) :=
  ⟨⟨by decide,
    (resolve_fails_closed envFill "hi" "Joanna" "text").1
      "https://signed/hiJoanna.mp3" (by decide)⟩,
   ⟨by decide, (resolve_fails_closed envHeadErr "hi" "Joanna" "text").2.1
      (by decide)⟩,
   ⟨by decide, by decide,
    (resolve_fails_closed envSynthFail "hi" "Joanna" "text").2.2.1
      (by decide) (by decide)⟩,
   ⟨by decide, by decide, by decide,
    (resolve_fails_closed envPutFail "hi" "Joanna" "text").2.2.2 [7]
      (by decide) (by decide) (by decide)⟩⟩

/-- Claim C6 (amended).  The audio cache performs no markup
sanitization at all: whenever it calls the speech provider, the text
passed is exactly the whole-string-trimmed input and the text type is
exactly the requested kind, for markup and plain kinds alike. -/
theorem synthesis_text_unsanitized (env : AwsEnv)
    (text voiceId textType : String) :
    synthCalls (get_or_create_audio_url env text voiceId textType).2 = [] ∨
      synthCalls (get_or_create_audio_url env text voiceId textType).2 =
        [(pystrip text, textType, voiceId)] :=
  resolve_synth_args env text voiceId textType

/-- Counterexample to claim C6 as stated: a markup-typed synthesis of
text carrying a `volume` attribute reaches the speech provider with
the attribute intact (the text passed is the trimmed input verbatim,
and it still contains `volume`). -/
theorem synthesis_sanitization_counterexample :
    pystrip ssmlVolume = ssmlVolume ∧
    synthCalls (get_or_create_audio_url envFill ssmlVolume "Joanna" "ssml").2 =
      [(ssmlVolume, "ssml", "Joanna")] ∧
    containsSub ssmlVolume "volume" = true := by
  decide

/-- Claim C7 (code bug).  The `ChatMessage` model declares only `role`
and `content`; the `ssml` and `audio_url` keyword arguments the
handler passes when appending the model reply are dropped by pydantic,
so the appended message never carries the parsed markup or the audio
reference, and its serialized form has no such keys. -/
theorem model_message_drops_markup_and_audio (display : String)
    (ssml audioUrl : Option String) :
    buildChatMessage "model" display ssml audioUrl =
      { role := "model", content := display } ∧
    (dictChatMessage (buildChatMessage "model" display ssml audioUrl)).lookup
        "ssml" = none ∧
    (dictChatMessage (buildChatMessage "model" display ssml audioUrl)).lookup
        "audio_url" = none :=
  ⟨rfl, rfl, rfl⟩

/-- Claim C8 (code bug).  The `MessageRequest` body model declares no
`bot_version` field, so a client-supplied bot version never reaches
the parsed request: the parsed record is identical with and without
it. -/
theorem request_model_drops_bot_version (message : String)
    (personaId : Option Int) (config : Option GenerationConfigModel)
    (botVersion : Option String) :
    buildMessageRequest message personaId config botVersion =
      buildMessageRequest message personaId config none ∧
    buildMessageRequest message personaId config botVersion =
      { message := message, persona_id := personaId, config := config } :=
  ⟨rfl, rfl⟩

/-- Claim C9.  The session display name is assigned exactly once: the
turn that finds the persisted history empty (the first user message)
sets it to the first 99 characters of that message, every turn leaves
the history nonempty, and any turn that finds the history nonempty
keeps the stored name; hence after a first turn followed by any
further turns the name is the first message's 99-character cut. -/
theorem session_name_set_once (counter : List ChatMessage → Nat)
    (budget : Nat) :
    (∀ (name : Option String) (turn : String × String),
      (handleTurn counter budget ([], name) turn).2 =
        some (pyslice turn.1 99)) ∧
    (∀ (state : List ChatMessage × Option String) (turn : String × String),
      state.1 ≠ [] → (handleTurn counter budget state turn).2 = state.2) ∧
    (∀ (m r : String) (turns : List (String × String)),
      (runTurns counter budget ([], none) ((m, r) :: turns)).2 =
        some (pyslice m 99)) := by
  refine ⟨handleTurn_first counter budget, ?_, ?_⟩
  · intro state turn hne
    exact handleTurn_snd_of_ne_nil counter budget state turn hne
  · intro m r turns
    have h₁ : (handleTurn counter budget ([], none) (m, r)).1 ≠ [] :=
      handleTurn_fst_ne_nil counter budget ([], none) (m, r)
    have h₂ : (handleTurn counter budget ([], none) (m, r)).2 =
        some (pyslice m 99) :=
      handleTurn_first counter budget none (m, r)
    calc (runTurns counter budget ([], none) ((m, r) :: turns)).2
        = (runTurns counter budget
            (handleTurn counter budget ([], none) (m, r)) turns).2 := rfl
      _ = (handleTurn counter budget ([], none) (m, r)).2 :=
          (runTurns_stable counter budget turns _ h₁).1
      _ = some (pyslice m 99) := h₂

/-- Witness for `session_name_set_once` at concrete inputs: a first
turn stores the 99-character cut, a later turn with nonempty history
keeps the stored name. -/
theorem session_name_set_once_check :
    ((handleTurn cLen 9 ([], none) ("Hi", "Hello!")).2 = some (pyslice "Hi" 99)) ∧
    ((msgs2, some "Hi").1 ≠ [] ∧
      (handleTurn cLen 9 (msgs2, some "Hi") ("What is up", "Not much")).2 =
        some "Hi") ∧
    ((runTurns cLen 9 ([], none)
        [("Hi", "Hello!"), ("What is up", "Not much")]).2 =
      some (pyslice "Hi" 99)) :=
  ⟨(session_name_set_once cLen 9).1 none ("Hi", "Hello!"),
   ⟨by decide,
    (session_name_set_once cLen 9).2.1 (msgs2, some "Hi")
      ("What is up", "Not much") (by decide)⟩,
   (session_name_set_once cLen 9).2.2 "Hi" "Hello!"
     [("What is up", "Not much")]⟩

/-- Claim C10.  If any of the speech client, the store client or the
bucket name is unconfigured, the audio cache returns `none`
immediately and performs no outbound call at all. -/
theorem resolve_skips_when_unconfigured (env : AwsEnv)
    (text voiceId textType : String)
    (hmiss : env.hasPolly = false ∨ env.hasS3 = false ∨ env.bucket = "") :
    get_or_create_audio_url env text voiceId textType = (none, []) :=
  resolve_unconfigured env text voiceId textType hmiss

/-- Witness for `resolve_skips_when_unconfigured` at a concrete
environment with the speech client missing. -/
theorem resolve_skips_when_unconfigured_check :
    (envNoPolly.hasPolly = false ∨ envNoPolly.hasS3 = false ∨
      envNoPolly.bucket = "") ∧
    get_or_create_audio_url envNoPolly "hello" "Joanna" "text" = (none, []) :=
  ⟨Or.inl rfl,
   resolve_skips_when_unconfigured envNoPolly "hello" "Joanna" "text"
     (Or.inl rfl)⟩

end ChatCore
